import Mathlib

/-!
Verification of the kops operation-lifecycle / health-gated-abort controller.

This file gives a shallow embedding, in Lean 4, of the parts of the Go
source that the specification's claims are about:

* the threshold evaluator of `controllers/health_controller.go`
  (`checkAllThresholds`, `checkNodeMetrics`, `checkContainerMetrics`,
  `checkPodMetrics`, `checkResourceUsage`, `validateMetricSections`,
  `checkAndAbortIfUnhealthy`, `abort`, `monitorOperation`,
  and the per-operation monitor dispatcher of `StartHealthMonitoring`);
* the manager-based reconciler (`OperationReconciler.Reconcile`,
  `createOperationCR`, `generateOperationName`, `cleanupAllOperationCRs`)
  and the polling reconciler's `CleanupOrphanedCRs` and name generator;
* the Azure status-oracle adapter (`Client.GetClusterOperationStatus`,
  `Client.isOperationInProgress`, `Client.determineOperationType`).

Go `map[string]interface` values are modelled by association lists over a
small JSON-like value type; Go `float64` metric/threshold values are
modelled by `ℚ` (the claims are about order comparisons only); Go channels
and goroutines are modelled by explicit event lists and traces; the
Kubernetes record store is modelled by a list of records with
create/get/delete operations mirroring the fake client used by the
repository's tests.
-/

/-- A JSON-like dynamic value, modelling Go `interface` values produced
by `json.Unmarshal` into `map[string]interface`. -/
inductive MVal where
  | num (q : ℚ)
  | boolean (b : Bool)
  | str (s : String)
  | obj (fields : List (String × MVal))
  | null

/-- Go `map[string]interface`, as an association list. -/
abbrev MMap := List (String × MVal)

/-- Map lookup, `val, ok := m[key]`. -/
def lookupVal (m : MMap) (key : String) : Option MVal :=
  m.lookup key

/-- Go comma-ok type assertion `v.(float64)`: yields the number exactly
when the dynamic value is a float. -/
def asFloat : Option MVal → Option ℚ
  | some (.num q) => some q
  | _ => none

/-- Go comma-ok type assertion `v.(bool)`. -/
def asBool : Option MVal → Option Bool
  | some (.boolean b) => some b
  | _ => none

/-- Go comma-ok type assertion `v.(map[string]interface)`; a missing key
or non-object value yields `none`, modelling Go's `nil` map. -/
def asObj : Option MVal → Option MMap
  | some (.obj m) => some m
  | _ => none

/-- `ThresholdViolation` from `health_controller.go`: a metric that
reached its configured threshold. -/
structure ThresholdViolation where
  Metric : String
  Current : ℚ
  Threshold : ℚ
  Reason : String
deriving DecidableEq, Repr

/-- The `getThreshold` closure of `checkAllThresholds`: absent key gives
`(0, false)`; a present non-float value hits the unchecked type assertion
`val.(float64)` and panics, modelled by `Except.error`. -/
def getThreshold (thresholdsMap : MMap) (key : String) : Except String (Option ℚ) :=
  match lookupVal thresholdsMap key with
  | none => .ok none
  | some (.num q) => .ok (some q)
  | some _ => .error "interface conversion: value is not float64"

/-- One threshold comparison as written in each checker of
`health_controller.go`: look up the threshold for `tkey`; if configured,
look up the snapshot field `fkey` with a comma-ok float assertion, and
emit a violation when the current value is `>=` the threshold. -/
def checkOne (thresholdsMap section_ : MMap) (tkey fkey reason : String) :
    Except String (List ThresholdViolation) :=
  match getThreshold thresholdsMap tkey with
  | .error e => .error e
  | .ok none => .ok []
  | .ok (some threshold) =>
    match asFloat (lookupVal section_ fkey) with
    | none => .ok []
    | some current =>
      if current ≥ threshold then
        .ok [⟨tkey, current, threshold, reason⟩]
      else
        .ok []

/-- `checkNodeMetrics` from `health_controller.go`. -/
def checkNodeMetrics (nodeMetrics thresholdsMap : MMap) :
    Except String (List ThresholdViolation) :=
  checkOne thresholdsMap nodeMetrics "not_ready_nodes_percent" "not_ready_percent"
    "not_ready_nodes_threshold_exceeded"

/-- `checkContainerMetrics` from `health_controller.go`. -/
def checkContainerMetrics (containerStats thresholdsMap : MMap) :
    Except String (List ThresholdViolation) :=
  checkOne thresholdsMap containerStats "crash_loop_percent" "crash_loop_percent"
    "crash_loop_threshold_exceeded"

/-- `checkPodMetrics` from `health_controller.go`: the four pod-level
thresholds, in source order. -/
def checkPodMetrics (podMetrics thresholdsMap : MMap) :
    Except String (List ThresholdViolation) :=
  match checkOne thresholdsMap podMetrics "crashing_pods_percent" "crashing_percent"
      "crashing_pods_threshold_exceeded" with
  | .error e => .error e
  | .ok v1 =>
    match checkOne thresholdsMap podMetrics "restart_percent" "restart_percent"
        "restart_percent_exceeded" with
    | .error e => .error e
    | .ok v2 =>
      match checkOne thresholdsMap podMetrics "restart_count" "total_restarts"
          "restart_count_threshold_exceeded" with
      | .error e => .error e
      | .ok v3 =>
        match checkOne thresholdsMap podMetrics "pending_pods_percent" "pending_percent"
            "pending_pods_threshold_exceeded" with
        | .error e => .error e
        | .ok v4 => .ok (v1 ++ v2 ++ v3 ++ v4)

/-- `checkResourceUsage` from `health_controller.go`. -/
def checkResourceUsage (resourceUsage thresholdsMap : MMap) :
    Except String (List ThresholdViolation) :=
  match checkOne thresholdsMap resourceUsage "cpu_usage_percent" "cpu_usage_percent"
      "cpu_usage_threshold_exceeded" with
  | .error e => .error e
  | .ok v1 =>
    match checkOne thresholdsMap resourceUsage "memory_usage_percent" "memory_usage_percent"
        "memory_usage_threshold_exceeded" with
    | .error e => .error e
    | .ok v2 => .ok (v1 ++ v2)

/-- The special-cased boolean service-health check inlined at the top of
`checkAllThresholds`: `healthy, ok := serviceHealth["healthy"].(bool)`,
and a violation exactly when `ok` and not healthy. -/
def checkServiceHealth (serviceHealth : MMap) : List ThresholdViolation :=
  match asBool (lookupVal serviceHealth "healthy") with
  | some false => [⟨"service_health", 0, 1, "service_health_false"⟩]
  | _ => []

/-- `checkAllThresholds` from `health_controller.go`: service health
first, then node, container, pod and resource-usage categories, appended
in source order.  A panic in any `getThreshold` call aborts the whole
evaluation. -/
def checkAllThresholds (podMetrics nodeMetrics containerStats serviceHealth resourceUsage
    thresholdsMap : MMap) : Except String (List ThresholdViolation) :=
  match checkNodeMetrics nodeMetrics thresholdsMap with
  | .error e => .error e
  | .ok nv =>
    match checkContainerMetrics containerStats thresholdsMap with
    | .error e => .error e
    | .ok cv =>
      match checkPodMetrics podMetrics thresholdsMap with
      | .error e => .error e
      | .ok pv =>
        match checkResourceUsage resourceUsage thresholdsMap with
        | .error e => .error e
        | .ok rv => .ok (checkServiceHealth serviceHealth ++ nv ++ cv ++ pv ++ rv)

/-- `validateMetricSections` from `health_controller.go`: `some msg` is
the returned error, `none` means validation passed.  A `none` argument
models a Go `nil` map (missing or ill-typed section). -/
def validateMetricSections (podMetrics nodeMetrics containerStats serviceHealth resourceUsage
    thresholdsMap : Option MMap) : Option String :=
  if podMetrics.isNone then some "no pod metrics found"
  else if nodeMetrics.isNone then some "no node metrics found"
  else if containerStats.isNone then some "no container stats found"
  else if serviceHealth.isNone then some "no service health found"
  else if resourceUsage.isNone then some "no resource usage found"
  else if thresholdsMap.isNone then some "no thresholds found"
  else none

/-- Observable outcome of one `checkAndAbortIfUnhealthy` evaluation:
which branch of the Go function was taken.  `aborted` records the abort
reason passed to the gateway and the full violation list reported. -/
inductive CheckOutcome where
  | validationFailed (msg : String)
  | healthy
  | aborted (reason : String) (violations : List ThresholdViolation)
  | panicked (msg : String)
deriving DecidableEq, Repr

/-- The evaluation core of `checkAndAbortIfUnhealthy`, after the two
ConfigMaps have been fetched and JSON-decoded into `parsed` and
`thresholds`: section extraction, validation, threshold evaluation, and
the derivation of the compound abort reason
`multiple_threshold_violations_N`. -/
def checkAndAbortEval (parsed thresholds : MMap) : CheckOutcome :=
  match validateMetricSections (asObj (lookupVal parsed "pod_metrics"))
      (asObj (lookupVal parsed "node_metrics")) (asObj (lookupVal parsed "container_stats"))
      (asObj (lookupVal parsed "serviceHealth")) (asObj (lookupVal parsed "resource_usage"))
      (asObj (lookupVal thresholds "thresholds")) with
  | some msg => .validationFailed msg
  | none =>
    match checkAllThresholds ((asObj (lookupVal parsed "pod_metrics")).getD [])
        ((asObj (lookupVal parsed "node_metrics")).getD [])
        ((asObj (lookupVal parsed "container_stats")).getD [])
        ((asObj (lookupVal parsed "serviceHealth")).getD [])
        ((asObj (lookupVal parsed "resource_usage")).getD [])
        ((asObj (lookupVal thresholds "thresholds")).getD []) with
    | .error e => .panicked e
    | .ok violations =>
      if violations.length > 0 then
        .aborted ("multiple_threshold_violations_" ++ toString violations.length) violations
      else
        .healthy

/-- The `abort` function of `health_controller.go`: it logs the result of
`AbortClusterOperation` but returns `true` unconditionally — the abort
gateway is invoked once and the caller terminates whether or not the
call failed.  `gatewayErr` models the error value returned by the Azure
abort call. -/
def abortOp (gatewayErr : Option String) : Bool :=
  match gatewayErr with
  | some _ => true
  | none => true

/-- Return value of one `checkAndAbortIfUnhealthy` call: `none` models a
panic escaping the goroutine; `some b` is the Go boolean return, with
`b = true` exactly when the abort gateway was invoked. -/
def checkAndAbortReturn (gatewayErr : Option String) (parsed thresholds : MMap) :
    Option Bool :=
  match checkAndAbortEval parsed thresholds with
  | .panicked _ => none
  | .aborted _ _ => some (abortOp gatewayErr)
  | _ => some false

/-- One wake-up of a monitor goroutine: a close of its stop channel, or a
coalesced `metricsUpdated` signal (the evaluation re-fetches the two
ConfigMaps, so the event carries the store contents seen then). -/
inductive MonEvent where
  | stop
  | update (parsed thresholds : MMap)

/-- The `select` loop of `monitorOperation`: on stop, return; on a
metrics update, re-evaluate and return if the evaluation reported
`true` (abort issued) — otherwise keep looping.  The result is the trace
of evaluation outcomes, in order. -/
def monitorLoop (gatewayErr : Option String) : List MonEvent → List CheckOutcome
  | [] => []
  | .stop :: _ => []
  | .update parsed thresholds :: rest =>
    match checkAndAbortReturn gatewayErr parsed thresholds with
    | none => [checkAndAbortEval parsed thresholds]
    | some true => [checkAndAbortEval parsed thresholds]
    | some false => checkAndAbortEval parsed thresholds :: monitorLoop gatewayErr rest

/-- `monitorOperation` from `health_controller.go`: an immediate initial
evaluation against the store contents at spawn time, then the select
loop.  Returns the trace of evaluation outcomes of this monitor. -/
def monitorOperation (gatewayErr : Option String) (initParsed initThresholds : MMap)
    (events : List MonEvent) : List CheckOutcome :=
  match checkAndAbortReturn gatewayErr initParsed initThresholds with
  | none => [checkAndAbortEval initParsed initThresholds]
  | some true => [checkAndAbortEval initParsed initThresholds]
  | some false => checkAndAbortEval initParsed initThresholds :: monitorLoop gatewayErr events

/-- Whether a trace element is an abort-issuing evaluation. -/
def isAbortOutcome : CheckOutcome → Bool
  | .aborted _ _ => true
  | _ => false

/-- The keys of the `operationMonitors` map of `StartHealthMonitoring`:
the set of operation names that currently have a live monitor
goroutine. -/
abbrev Monitors := List String

/-- The `AddFunc` handler of `StartHealthMonitoring`: if a monitor for
this name already exists the create-observation is skipped (no second
goroutine, no error); otherwise a stop channel is stored under the name
and a monitor goroutine is started. -/
def handleCRAdd (monitors : Monitors) (name : String) : Monitors :=
  if name ∈ monitors then monitors else monitors ++ [name]

/-- The `DeleteFunc` handler of `StartHealthMonitoring`: close the stop
channel and drop the map entry, if one exists. -/
def handleCRDelete (monitors : Monitors) (name : String) : Monitors :=
  if name ∈ monitors then monitors.erase name else monitors

/-- `azure.OperationStatus` as used by the reconcilers and their tests
(fields `InProgress`, `OperationType`, `Status`, `OperationID`). -/
structure OperationStatus where
  InProgress : Bool
  OperationType : String
  Status : String
  OperationID : String
deriving DecidableEq, Repr

/-- `strings.ToLower`, rune-wise. -/
def goToLower (s : String) : String :=
  ⟨s.data.map Char.toLower⟩

/-- `strings.ReplaceAll` for a single-character pattern and a
single-character replacement, which is what every call site in the name
generators uses. -/
def goReplaceAll (s : String) (pat repl : Char) : String :=
  ⟨s.data.map (fun c => if c = pat then repl else c)⟩

/-- `OperationReconciler.generateOperationName` of the manager-based
reconciler (the variant exercised by `operation_controller_test.go`):
`op-` prefix, lower-cased cluster name, lower-cased operation type (or
status when the type is empty), then `_`, space and `.` replaced by `-`
and a final lower-casing.  There is no truncation in this variant. -/
def generateOperationName (clusterNameField : String) (state : OperationStatus) : String :=
  let clusterName := goToLower clusterNameField
  let operationName :=
    if state.OperationType ≠ "" then
      "op-" ++ clusterName ++ "-" ++ goToLower state.OperationType
    else
      "op-" ++ clusterName ++ "-" ++ goToLower state.Status
  goToLower (goReplaceAll (goReplaceAll (goReplaceAll operationName '_' '-') ' ' '-') '.' '-')

/-- `OperationReconciler.generateOperationName` of the polling-based
reconciler variant: `azure-op-` prefix, `.` and `_` replaced by `-`
(spaces are not replaced), and the result truncated to 63 when longer
(byte truncation in Go; character truncation here — identical on the
ASCII inputs at issue). -/
def generateOperationNamePolling (clusterNameField : String) (state : OperationStatus) :
    String :=
  let cluster := goReplaceAll (goReplaceAll (goToLower clusterNameField) '.' '-') '_' '-'
  let opType := goReplaceAll (goReplaceAll (goToLower state.OperationType) '.' '-') '_' '-'
  let name := "azure-op-" ++ cluster ++ "-" ++ opType
  if name.length > 63 then ⟨name.data.take 63⟩ else name

/-- An Operation custom resource as stored in the record store. -/
structure OperationCR where
  name : String
  ns : String
  labels : List (String × String)
  annots : List (String × String)
  spec : List (String × MVal)
  statusFields : List (String × MVal)

/-- Identity fields of the manager-based `OperationReconciler`. -/
structure ReconcilerIds where
  ResourceGroup : String
  ClusterName : String

/-- `createOperationCR` from the manager-based reconciler: the CR
payload built for an in-progress operation.  `now` stands for the
`time.Now()` timestamps. -/
def createOperationCR (r : ReconcilerIds) (now : String) (name : String)
    (state : OperationStatus) : OperationCR :=
  { name := name
    ns := "default"
    labels := [("azure.cluster.name", r.ClusterName),
               ("azure.resource.group", r.ResourceGroup),
               ("azure.operation.status", state.Status)]
    annots := [("azure.operation.started", now)]
    spec := [("operationStatus", .str state.Status),
             ("operationType", .str state.OperationType),
             ("clusterName", .str r.ClusterName),
             ("resourceGroup", .str r.ResourceGroup),
             ("inProgress", .boolean state.InProgress)]
    statusFields := [("phase", .str "Running"),
                     ("lastChecked", .str now)] }

/-- The record store: the fake client's object list, keyed by
name and namespace. -/
abbrev CRStore := List OperationCR

/-- `client.Get` by namespaced name. -/
def getCR (name ns : String) (store : CRStore) : Option OperationCR :=
  store.find? (fun cr => cr.name == name && cr.ns == ns)

/-- `client.Create`: an AlreadyExists error when a record with the same
namespaced name is present, otherwise the record is added. -/
def k8sCreate (cr : OperationCR) (store : CRStore) : Except String CRStore :=
  match getCR cr.name cr.ns store with
  | some _ => .error "already exists"
  | none => .ok (store ++ [cr])

/-- `client.Delete` by namespaced name (deleting an absent record is the
NotFound case, which every caller tolerates). -/
def deleteCRByName (name ns : String) (store : CRStore) : CRStore :=
  store.filter (fun cr => !(cr.name == name && cr.ns == ns))

/-- `cleanupAllOperationCRs` from the manager-based reconciler: list all
Operation CRs in the `default` namespace (no label selector) and delete
each one; per-record delete failures are logged and skipped. -/
def cleanupAllOperationCRs (store : CRStore) : CRStore :=
  store.filter (fun cr => !(cr.ns == "default"))

/-- `OperationReconciler.Reconcile` of the manager-based reconciler,
evaluated against an oracle answer and a store state.  The Go function
also always returns a 30s requeue; the claims under verification are
about the store effect, returned here (an `error` result models the
`(Result, err)` return with non-nil `err`). -/
def Reconcile (r : ReconcilerIds) (now : String) (oracle : Except String OperationStatus)
    (store : CRStore) : Except String CRStore :=
  match oracle with
  | .error e => .error e
  | .ok state =>
    if state.InProgress then
      match getCR (generateOperationName r.ClusterName state) "default" store with
      | none => k8sCreate (createOperationCR r now
          (generateOperationName r.ClusterName state) state) store
      | some _ => .ok store
    else
      match getCR (generateOperationName r.ClusterName state) "default" store with
      | some _ => .ok (cleanupAllOperationCRs
          (deleteCRByName (generateOperationName r.ClusterName state) "default" store))
      | none => .ok (cleanupAllOperationCRs store)

/-- `n` consecutive `Reconcile` runs against the same oracle status
(`nows i` stands for the wall-clock timestamp of run `i`). -/
def reconcileIter (r : ReconcilerIds) (nows : Nat → String) (state : OperationStatus) :
    Nat → CRStore → Except String CRStore
  | 0, store => .ok store
  | n + 1, store =>
    match Reconcile r (nows n) (.ok state) store with
    | .error e => .error e
    | .ok store' => reconcileIter r nows state n store'

/-- Number of records with the given name in the `default` namespace. -/
def countName (name : String) (store : CRStore) : Nat :=
  (store.filter (fun cr => cr.name == name && cr.ns == "default")).length

/-- Identity fields of the polling-based `OperationReconciler`. -/
structure PollReconcilerIds where
  Namespace : String
  ResourceGroup : String
  ClusterName : String

/-- `OperationReconciler.CleanupOrphanedCRs` of the polling-based
reconciler: list all Operation CRs in the reconciler's namespace
carrying the label `azure.cluster.name = ClusterName`, and delete every
listed record (per-record delete failures are logged and skipped; the
oracle is not consulted). -/
def CleanupOrphanedCRs (r : PollReconcilerIds) (store : CRStore) : CRStore :=
  store.filter (fun cr =>
    !(cr.ns == r.Namespace && cr.labels.lookup "azure.cluster.name" == some r.ClusterName))

/-- `azure.OperationStatus` as produced by the oracle adapter of the
`internal/azure` package (fields `InProgress`, `Type`, `Status`,
`OperationID`; the unused timestamp/error fields are omitted — the Go
field `Type` is `OpType` here, `Type` being reserved in Lean). -/
structure AzOperationStatus where
  InProgress : Bool
  OpType : String
  Status : String
  OperationID : String
deriving DecidableEq, Repr

/-- An AKS agent-pool profile, restricted to the field the adapter
reads. -/
structure AgentPool where
  provisioningState : Option String

/-- `ManagedCluster.Properties`, restricted to the fields the adapter
reads (`none` models a Go `nil` pointer/slice/map). -/
structure ClusterProperties where
  provisioningState : Option String
  kubernetesVersion : Option String
  agentPoolProfiles : Option (List AgentPool)
  addonProfiles : Bool

/-- The managed-cluster response the adapter classifies. -/
structure ManagedCluster where
  properties : Option ClusterProperties

/-- `strings.EqualFold` (simple case-folding equality; ASCII-faithful). -/
def eqFold (s t : String) : Bool :=
  goToLower s == goToLower t

/-- `Client.isOperationInProgress`: case-insensitive membership in the
fixed active-state list, via a fold loop with early exit. -/
def isOperationInProgress (provisioningState : String) : Bool :=
  ["Upgrading", "Updating", "Scaling", "Creating", "Deleting", "Running", "InProgress"].any
    (fun state => eqFold provisioningState state)

/-- `Client.determineOperationType`: version-change signals → upgrade;
an active pool-level sub-state → node-pool scale; add-on profiles
present → add-on update; else generic cluster update. -/
def determineOperationType (cluster : ManagedCluster) : String :=
  match cluster.properties with
  | none => "ClusterOperation"
  | some props =>
    if props.kubernetesVersion.isSome then "ClusterUpgrade"
    else
      match props.agentPoolProfiles with
      | some pools =>
        if pools.any (fun pool =>
            match pool.provisioningState with
            | some ps => isOperationInProgress ps
            | none => false) then
          "NodePoolScale"
        else if props.addonProfiles then "AddonUpdate"
        else "ClusterUpdate"
      | none =>
        if props.addonProfiles then "AddonUpdate"
        else "ClusterUpdate"

/-- The provisioning state read by the adapter:
`cluster.Properties != nil && cluster.Properties.ProvisioningState != nil`. -/
def clusterProvisioningState (cluster : ManagedCluster) : Option String :=
  match cluster.properties with
  | none => none
  | some props => props.provisioningState

/-- `Client.GetClusterOperationStatus` of the `internal/azure` adapter,
after a successful cluster fetch.  `clusterName` is the client's target
cluster and `nowUnix` stands for `time.Now().Unix()`. -/
def GetClusterOperationStatus (clusterName : String) (nowUnix : Int)
    (cluster : ManagedCluster) : AzOperationStatus :=
  match clusterProvisioningState cluster with
  | none =>
    { InProgress := false
      OpType := "ClusterOperation"
      Status := "Unknown"
      OperationID := clusterName ++ "-unknown" }
  | some provisioningState =>
    { InProgress := isOperationInProgress provisioningState
      OpType := determineOperationType cluster
      Status := provisioningState
      OperationID := clusterName ++ "-" ++ provisioningState ++ "-" ++ toString nowUnix }

/-- Whether a violation list contains a violation for the given metric
key. -/
def hasViolationFor (vs : List ThresholdViolation) (key : String) : Bool :=
  vs.any (fun v => v.Metric == key)

/-- Modelled from the spec: the claim's normalization — lower-case every
character and replace every `.`, `_` and space by `-`. -/
def normalizeC8 (s : String) : String :=
  ⟨s.data.map (fun c => if c = '.' ∨ c = '_' ∨ c = ' ' then '-' else c.toLower)⟩

/-- Modelled from the spec: the generated record name exactly as claim C8
states it — normalized cluster name, `-`, normalized operation type (or
status when the type is empty), truncated to at most 63 characters. -/
def specC8Name (clusterName : String) (state : OperationStatus) : String :=
  let base := normalizeC8 clusterName ++ "-" ++
    normalizeC8 (if state.OperationType ≠ "" then state.OperationType else state.Status)
  ⟨base.data.take 63⟩

/-- The claim-C8-amended name: the code's `op-` prefix and component
normalization, with no truncation. -/
def amendedC8Name (clusterName : String) (state : OperationStatus) : String :=
  "op-" ++ normalizeC8 clusterName ++ "-" ++
    normalizeC8 (if state.OperationType ≠ "" then state.OperationType else state.Status)

/-! ## Shared lemmas -/

theorem handleCRAdd_count_le (m : Monitors) (n name : String) (h : m.count name ≤ 1) :
    (handleCRAdd m n).count name ≤ 1 := by
  unfold handleCRAdd
  split
  · exact h
  · rename_i hn
    rw [List.count_append]
    by_cases he : n = name
    · subst he
      have hz : m.count n = 0 := by
        rw [List.count_eq_zero]
        exact hn
      simp [hz]
    · have hz : List.count name [n] = 0 := by
        rw [List.count_eq_zero]
        intro hmem
        exact he (List.mem_singleton.mp hmem).symm
      omega

theorem foldl_handleCRAdd_count (creates : List String) :
    ∀ m : Monitors, (∀ k, m.count k ≤ 1) →
      ∀ name, ((creates.foldl handleCRAdd m).count name ≤ 1) := by
  induction creates with
  | nil => intro m h name; exact h name
  | cons c cs ih =>
    intro m h name
    exact ih (handleCRAdd m c) (fun k => handleCRAdd_count_le m c k (h k)) name

theorem mem_handleCRAdd_self (m : Monitors) (n : String) : n ∈ handleCRAdd m n := by
  unfold handleCRAdd
  split
  · assumption
  · simp

theorem mem_handleCRAdd_mono (m : Monitors) (n k : String) (h : k ∈ m) :
    k ∈ handleCRAdd m n := by
  unfold handleCRAdd
  split
  · exact h
  · simp [h]

theorem mem_foldl_handleCRAdd (creates : List String) :
    ∀ (m : Monitors) (name : String), name ∈ creates ∨ name ∈ m →
      name ∈ creates.foldl handleCRAdd m := by
  induction creates with
  | nil =>
    intro m name h
    simpa using h
  | cons c cs ih =>
    intro m name h
    rcases h with h | h
    · rcases List.mem_cons.mp h with h | h
      · subst h
        exact ih _ _ (Or.inr (mem_handleCRAdd_self m name))
      · exact ih _ _ (Or.inl h)
    · exact ih _ _ (Or.inr (mem_handleCRAdd_mono m c name h))

/-! ## Claim theorems -/

/-- C10: a thresholds map that passes section validation but binds the
recognized key `crashing_pods_percent` to a non-float value makes the
evaluation panic on the unchecked `val.(float64)` type assertion in
`getThreshold`, rather than return a violation list, skip the key, or
report a validation error. -/
theorem C10_unchecked_type_assertion_panics :
    validateMetricSections (some []) (some []) (some []) (some []) (some [])
      (some [("crashing_pods_percent", MVal.str "ten")]) = none
    ∧ checkAndAbortEval
        [("pod_metrics", .obj []), ("node_metrics", .obj []), ("container_stats", .obj []),
         ("serviceHealth", .obj []), ("resource_usage", .obj [])]
        [("thresholds", .obj [("crashing_pods_percent", .str "ten")])] =
      .panicked "interface conversion: value is not float64" := by
  exact ⟨rfl, rfl⟩

/-- C2: the dispatcher of `StartHealthMonitoring` keeps at most one live
monitor per operation name: a create-observation for a name that already
has a live monitor leaves the monitor map unchanged (no second monitor,
and the handler returns normally, raising no error), and any sequence of
create-observations before any deletion yields at most one — and for an
observed name exactly one — live monitor for each name. -/
theorem C2_at_most_one_monitor :
    (∀ (m : Monitors) (n : String), handleCRAdd (handleCRAdd m n) n = handleCRAdd m n)
    ∧ (∀ (creates : List String) (name : String),
        ((creates.foldl handleCRAdd []).count name ≤ 1))
    ∧ (∀ (creates : List String) (name : String), name ∈ creates →
        (creates.foldl handleCRAdd []).count name = 1) := by
  refine ⟨?_, ?_, ?_⟩
  · intro m n
    have h := mem_handleCRAdd_self m n
    unfold handleCRAdd
    unfold handleCRAdd at h
    simp [h]
  · intro creates name
    exact foldl_handleCRAdd_count creates [] (by simp) name
  · intro creates name h
    have h1 := foldl_handleCRAdd_count creates [] (by simp) name
    have h2 := mem_foldl_handleCRAdd creates [] name (Or.inl h)
    have h3 : 0 < (creates.foldl handleCRAdd []).count name :=
      List.count_pos_iff.mpr h2
    omega

/-- Witness for C2 at a concrete duplicated create-observation. -/
theorem C2_witness :
    ((["op-a", "op-a"].foldl handleCRAdd []).count "op-a" = 1) :=
  C2_at_most_one_monitor.2.2 ["op-a", "op-a"] "op-a" (by simp)

theorem validateMetricSections_eq_none_iff (p n c s r t : Option MMap) :
    validateMetricSections p n c s r t = none ↔
      p.isSome ∧ n.isSome ∧ c.isSome ∧ s.isSome ∧ r.isSome ∧ t.isSome := by
  unfold validateMetricSections
  cases p <;> cases n <;> cases c <;> cases s <;> cases r <;> cases t <;> simp

/-- C4: when any required section (pod, node, container, service-health,
resource-usage, or the thresholds map) is missing from the decoded
snapshot/thresholds, the evaluation is reported as a validation failure:
an outcome distinct both from an abort (so the abort gateway is not
invoked and no violations are computed) and from a healthy zero-violation
evaluation. -/
theorem C4_missing_section_is_validation_failure (parsed thresholds : MMap)
    (h : asObj (lookupVal parsed "pod_metrics") = none ∨
         asObj (lookupVal parsed "node_metrics") = none ∨
         asObj (lookupVal parsed "container_stats") = none ∨
         asObj (lookupVal parsed "serviceHealth") = none ∨
         asObj (lookupVal parsed "resource_usage") = none ∨
         asObj (lookupVal thresholds "thresholds") = none) :
    ∃ msg, checkAndAbortEval parsed thresholds = .validationFailed msg ∧
      (∀ reason vs, CheckOutcome.validationFailed msg ≠ .aborted reason vs) ∧
      CheckOutcome.validationFailed msg ≠ .healthy := by
  have hv : validateMetricSections (asObj (lookupVal parsed "pod_metrics"))
      (asObj (lookupVal parsed "node_metrics")) (asObj (lookupVal parsed "container_stats"))
      (asObj (lookupVal parsed "serviceHealth")) (asObj (lookupVal parsed "resource_usage"))
      (asObj (lookupVal thresholds "thresholds")) ≠ none := by
    rw [Ne, validateMetricSections_eq_none_iff]
    rcases h with h | h | h | h | h | h <;> simp [h]
  obtain ⟨msg, hmsg⟩ := Option.ne_none_iff_exists'.mp hv
  refine ⟨msg, ?_, ?_, ?_⟩
  · unfold checkAndAbortEval
    simp only [hmsg]
  · intro reason vs hc
    cases hc
  · intro hc
    cases hc

/-- Witness for C4 at the empty snapshot and thresholds documents. -/
theorem C4_witness :
    ∃ msg, checkAndAbortEval [] [] = .validationFailed msg ∧
      (∀ reason vs, CheckOutcome.validationFailed msg ≠ .aborted reason vs) ∧
      CheckOutcome.validationFailed msg ≠ .healthy :=
  C4_missing_section_is_validation_failure [] [] (Or.inl rfl)

theorem checkOne_eq_of_num (tm sec : MMap) (tkey fkey reason : String) (t c : ℚ)
    (ht : lookupVal tm tkey = some (.num t)) (hc : asFloat (lookupVal sec fkey) = some c) :
    checkOne tm sec tkey fkey reason =
      .ok (if t ≤ c then [⟨tkey, c, t, reason⟩] else []) := by
  unfold checkOne getThreshold
  rw [ht, hc]
  simp only [ge_iff_le]
  split <;> rfl

theorem checkOne_metric_eq (tm sec : MMap) (tkey fkey reason : String)
    (vs : List ThresholdViolation) (h : checkOne tm sec tkey fkey reason = .ok vs) :
    ∀ v ∈ vs, v.Metric = tkey := by
  unfold checkOne at h
  split at h
  · cases h
  · cases h
    intro v hv
    cases hv
  · split at h
    · cases h
      intro v hv
      cases hv
    · split at h
      · cases h
        intro v hv
        rcases List.mem_singleton.mp hv with rfl
        rfl
      · cases h
        intro v hv
        cases hv

theorem hasViolationFor_append (vs ws : List ThresholdViolation) (k : String) :
    hasViolationFor (vs ++ ws) k = (hasViolationFor vs k || hasViolationFor ws k) := by
  simp [hasViolationFor]

theorem hasViolationFor_eq_false_of_ne (vs : List ThresholdViolation) (t k : String)
    (hm : ∀ v ∈ vs, v.Metric = t) (hne : t ≠ k) : hasViolationFor vs k = false := by
  unfold hasViolationFor
  rw [List.any_eq_false]
  intro v hv
  rw [hm v hv]
  simpa using hne

theorem hasViolationFor_ite (t c : ℚ) (k reason : String) :
    (hasViolationFor (if t ≤ c then [⟨k, c, t, reason⟩] else []) k = true) ↔ t ≤ c := by
  split
  · rename_i hle
    simp [hasViolationFor, hle]
  · rename_i hle
    simp [hasViolationFor, hle]

theorem checkPodMetrics_ok_parts (pm tm : MMap) (vs : List ThresholdViolation)
    (h : checkPodMetrics pm tm = .ok vs) :
    ∃ v1 v2 v3 v4,
      checkOne tm pm "crashing_pods_percent" "crashing_percent"
        "crashing_pods_threshold_exceeded" = .ok v1 ∧
      checkOne tm pm "restart_percent" "restart_percent" "restart_percent_exceeded" = .ok v2 ∧
      checkOne tm pm "restart_count" "total_restarts"
        "restart_count_threshold_exceeded" = .ok v3 ∧
      checkOne tm pm "pending_pods_percent" "pending_percent"
        "pending_pods_threshold_exceeded" = .ok v4 ∧
      vs = v1 ++ v2 ++ v3 ++ v4 := by
  unfold checkPodMetrics at h
  split at h
  · cases h
  · rename_i v1 h1
    split at h
    · cases h
    · rename_i v2 h2
      split at h
      · cases h
      · rename_i v3 h3
        split at h
        · cases h
        · rename_i v4 h4
          cases h
          exact ⟨v1, v2, v3, v4, h1, h2, h3, h4, rfl⟩

theorem checkResourceUsage_ok_parts (ru tm : MMap) (vs : List ThresholdViolation)
    (h : checkResourceUsage ru tm = .ok vs) :
    ∃ v1 v2,
      checkOne tm ru "cpu_usage_percent" "cpu_usage_percent"
        "cpu_usage_threshold_exceeded" = .ok v1 ∧
      checkOne tm ru "memory_usage_percent" "memory_usage_percent"
        "memory_usage_threshold_exceeded" = .ok v2 ∧
      vs = v1 ++ v2 := by
  unfold checkResourceUsage at h
  split at h
  · cases h
  · rename_i v1 h1
    split at h
    · cases h
    · rename_i v2 h2
      cases h
      exact ⟨v1, v2, h1, h2, rfl⟩

/-- C3: for every snapshot section and thresholds map in which a
recognized threshold key is bound to a number and the corresponding
snapshot field is a number, the evaluation (when it completes) emits a
violation for that key if and only if the field's value is greater than
or equal to the threshold — covering all four pod-level checks of
`checkPodMetrics` and both checks of `checkResourceUsage`. -/
theorem C3_inclusive_threshold_boundary :
    (∀ (tm pm : MMap) (t c : ℚ) (vs : List ThresholdViolation),
      lookupVal tm "crashing_pods_percent" = some (.num t) →
      asFloat (lookupVal pm "crashing_percent") = some c →
      checkPodMetrics pm tm = .ok vs →
      (hasViolationFor vs "crashing_pods_percent" = true ↔ t ≤ c))
    ∧ (∀ (tm pm : MMap) (t c : ℚ) (vs : List ThresholdViolation),
      lookupVal tm "restart_percent" = some (.num t) →
      asFloat (lookupVal pm "restart_percent") = some c →
      checkPodMetrics pm tm = .ok vs →
      (hasViolationFor vs "restart_percent" = true ↔ t ≤ c))
    ∧ (∀ (tm pm : MMap) (t c : ℚ) (vs : List ThresholdViolation),
      lookupVal tm "restart_count" = some (.num t) →
      asFloat (lookupVal pm "total_restarts") = some c →
      checkPodMetrics pm tm = .ok vs →
      (hasViolationFor vs "restart_count" = true ↔ t ≤ c))
    ∧ (∀ (tm pm : MMap) (t c : ℚ) (vs : List ThresholdViolation),
      lookupVal tm "pending_pods_percent" = some (.num t) →
      asFloat (lookupVal pm "pending_percent") = some c →
      checkPodMetrics pm tm = .ok vs →
      (hasViolationFor vs "pending_pods_percent" = true ↔ t ≤ c))
    ∧ (∀ (tm ru : MMap) (t c : ℚ) (vs : List ThresholdViolation),
      lookupVal tm "cpu_usage_percent" = some (.num t) →
      asFloat (lookupVal ru "cpu_usage_percent") = some c →
      checkResourceUsage ru tm = .ok vs →
      (hasViolationFor vs "cpu_usage_percent" = true ↔ t ≤ c))
    ∧ (∀ (tm ru : MMap) (t c : ℚ) (vs : List ThresholdViolation),
      lookupVal tm "memory_usage_percent" = some (.num t) →
      asFloat (lookupVal ru "memory_usage_percent") = some c →
      checkResourceUsage ru tm = .ok vs →
      (hasViolationFor vs "memory_usage_percent" = true ↔ t ≤ c)) := by
  refine ⟨?_, ?_, ?_, ?_, ?_, ?_⟩
  · intro tm pm t c vs ht hc h
    obtain ⟨v1, v2, v3, v4, h1, h2, h3, h4, hvs⟩ := checkPodMetrics_ok_parts pm tm vs h
    have hv1 : v1 = if t ≤ c then [⟨"crashing_pods_percent", c, t,
        "crashing_pods_threshold_exceeded"⟩] else [] := by
      rw [checkOne_eq_of_num tm pm _ _ _ t c ht hc] at h1
      exact (Except.ok.inj h1).symm
    subst hvs
    rw [hasViolationFor_append, hasViolationFor_append, hasViolationFor_append,
      hasViolationFor_eq_false_of_ne v2 _ _ (checkOne_metric_eq tm pm _ _ _ v2 h2) (by decide),
      hasViolationFor_eq_false_of_ne v3 _ _ (checkOne_metric_eq tm pm _ _ _ v3 h3) (by decide),
      hasViolationFor_eq_false_of_ne v4 _ _ (checkOne_metric_eq tm pm _ _ _ v4 h4) (by decide),
      hv1]
    simpa using hasViolationFor_ite t c "crashing_pods_percent" "crashing_pods_threshold_exceeded"
  · intro tm pm t c vs ht hc h
    obtain ⟨v1, v2, v3, v4, h1, h2, h3, h4, hvs⟩ := checkPodMetrics_ok_parts pm tm vs h
    have hv2 : v2 = if t ≤ c then [⟨"restart_percent", c, t,
        "restart_percent_exceeded"⟩] else [] := by
      rw [checkOne_eq_of_num tm pm _ _ _ t c ht hc] at h2
      exact (Except.ok.inj h2).symm
    subst hvs
    rw [hasViolationFor_append, hasViolationFor_append, hasViolationFor_append,
      hasViolationFor_eq_false_of_ne v1 _ _ (checkOne_metric_eq tm pm _ _ _ v1 h1) (by decide),
      hasViolationFor_eq_false_of_ne v3 _ _ (checkOne_metric_eq tm pm _ _ _ v3 h3) (by decide),
      hasViolationFor_eq_false_of_ne v4 _ _ (checkOne_metric_eq tm pm _ _ _ v4 h4) (by decide),
      hv2]
    simpa using hasViolationFor_ite t c "restart_percent" "restart_percent_exceeded"
  · intro tm pm t c vs ht hc h
    obtain ⟨v1, v2, v3, v4, h1, h2, h3, h4, hvs⟩ := checkPodMetrics_ok_parts pm tm vs h
    have hv3 : v3 = if t ≤ c then [⟨"restart_count", c, t,
        "restart_count_threshold_exceeded"⟩] else [] := by
      rw [checkOne_eq_of_num tm pm _ _ _ t c ht hc] at h3
      exact (Except.ok.inj h3).symm
    subst hvs
    rw [hasViolationFor_append, hasViolationFor_append, hasViolationFor_append,
      hasViolationFor_eq_false_of_ne v1 _ _ (checkOne_metric_eq tm pm _ _ _ v1 h1) (by decide),
      hasViolationFor_eq_false_of_ne v2 _ _ (checkOne_metric_eq tm pm _ _ _ v2 h2) (by decide),
      hasViolationFor_eq_false_of_ne v4 _ _ (checkOne_metric_eq tm pm _ _ _ v4 h4) (by decide),
      hv3]
    simpa using hasViolationFor_ite t c "restart_count" "restart_count_threshold_exceeded"
  · intro tm pm t c vs ht hc h
    obtain ⟨v1, v2, v3, v4, h1, h2, h3, h4, hvs⟩ := checkPodMetrics_ok_parts pm tm vs h
    have hv4 : v4 = if t ≤ c then [⟨"pending_pods_percent", c, t,
        "pending_pods_threshold_exceeded"⟩] else [] := by
      rw [checkOne_eq_of_num tm pm _ _ _ t c ht hc] at h4
      exact (Except.ok.inj h4).symm
    subst hvs
    rw [hasViolationFor_append, hasViolationFor_append, hasViolationFor_append,
      hasViolationFor_eq_false_of_ne v1 _ _ (checkOne_metric_eq tm pm _ _ _ v1 h1) (by decide),
      hasViolationFor_eq_false_of_ne v2 _ _ (checkOne_metric_eq tm pm _ _ _ v2 h2) (by decide),
      hasViolationFor_eq_false_of_ne v3 _ _ (checkOne_metric_eq tm pm _ _ _ v3 h3) (by decide),
      hv4]
    simpa using hasViolationFor_ite t c "pending_pods_percent" "pending_pods_threshold_exceeded"
  · intro tm ru t c vs ht hc h
    obtain ⟨v1, v2, h1, h2, hvs⟩ := checkResourceUsage_ok_parts ru tm vs h
    have hv1 : v1 = if t ≤ c then [⟨"cpu_usage_percent", c, t,
        "cpu_usage_threshold_exceeded"⟩] else [] := by
      rw [checkOne_eq_of_num tm ru _ _ _ t c ht hc] at h1
      exact (Except.ok.inj h1).symm
    subst hvs
    rw [hasViolationFor_append,
      hasViolationFor_eq_false_of_ne v2 _ _ (checkOne_metric_eq tm ru _ _ _ v2 h2) (by decide),
      hv1]
    simpa using hasViolationFor_ite t c "cpu_usage_percent" "cpu_usage_threshold_exceeded"
  · intro tm ru t c vs ht hc h
    obtain ⟨v1, v2, h1, h2, hvs⟩ := checkResourceUsage_ok_parts ru tm vs h
    have hv2 : v2 = if t ≤ c then [⟨"memory_usage_percent", c, t,
        "memory_usage_threshold_exceeded"⟩] else [] := by
      rw [checkOne_eq_of_num tm ru _ _ _ t c ht hc] at h2
      exact (Except.ok.inj h2).symm
    subst hvs
    rw [hasViolationFor_append,
      hasViolationFor_eq_false_of_ne v1 _ _ (checkOne_metric_eq tm ru _ _ _ v1 h1) (by decide),
      hv2]
    simpa using hasViolationFor_ite t c "memory_usage_percent" "memory_usage_threshold_exceeded"

/-- Witness for C3: a metric exactly at its threshold is a violation; one
unit below is not. -/
theorem C3_witness :
    (∃ vs, checkPodMetrics [("crashing_percent", MVal.num 10)]
        [("crashing_pods_percent", MVal.num 10)] = .ok vs ∧
        hasViolationFor vs "crashing_pods_percent" = true)
    ∧ (∃ vs, checkPodMetrics [("crashing_percent", MVal.num 9)]
        [("crashing_pods_percent", MVal.num 10)] = .ok vs ∧
        hasViolationFor vs "crashing_pods_percent" = false) := by
  constructor
  · refine ⟨_, rfl, ?_⟩
    exact (C3_inclusive_threshold_boundary.1 [("crashing_pods_percent", MVal.num 10)]
      [("crashing_percent", MVal.num 10)] 10 10 _ rfl rfl rfl).mpr (le_refl 10)
  · refine ⟨_, rfl, ?_⟩
    have hiff := C3_inclusive_threshold_boundary.1 [("crashing_pods_percent", MVal.num 10)]
      [("crashing_percent", MVal.num 9)] 10 9 _ rfl rfl rfl
    rw [Bool.eq_false_iff]
    intro htrue
    have hle := hiff.mp htrue
    norm_num at hle

theorem checkAllThresholds_ok_parts (pm nm cs sh ru tm : MMap)
    (vs : List ThresholdViolation) (h : checkAllThresholds pm nm cs sh ru tm = .ok vs) :
    ∃ nv cv pv rv,
      checkNodeMetrics nm tm = .ok nv ∧ checkContainerMetrics cs tm = .ok cv ∧
      checkPodMetrics pm tm = .ok pv ∧ checkResourceUsage ru tm = .ok rv ∧
      vs = checkServiceHealth sh ++ nv ++ cv ++ pv ++ rv := by
  unfold checkAllThresholds at h
  split at h
  · cases h
  · rename_i nv h1
    split at h
    · cases h
    · rename_i cv h2
      split at h
      · cases h
      · rename_i pv h3
        split at h
        · cases h
        · rename_i rv h4
          cases h
          exact ⟨nv, cv, pv, rv, h1, h2, h3, h4, rfl⟩

/-- C7: evaluation is a pure function of its inputs (two evaluations on
identical snapshot and thresholds inputs are the same term, hence return
the identical ordered list); every successful evaluation decomposes into
the fixed category order service-health, node, container, pod,
resource-usage; and whenever the monitor aborts, the violation list is
non-empty and the single abort reason is
`multiple_threshold_violations_N` with `N` the number of reported
violations. -/
theorem C7_deterministic_ordered_compound_reason :
    (∀ pm nm cs sh ru tm, checkAllThresholds pm nm cs sh ru tm =
        checkAllThresholds pm nm cs sh ru tm)
    ∧ (∀ pm nm cs sh ru tm vs, checkAllThresholds pm nm cs sh ru tm = .ok vs →
        ∃ nv cv pv rv,
          checkNodeMetrics nm tm = .ok nv ∧ checkContainerMetrics cs tm = .ok cv ∧
          checkPodMetrics pm tm = .ok pv ∧ checkResourceUsage ru tm = .ok rv ∧
          vs = checkServiceHealth sh ++ nv ++ cv ++ pv ++ rv)
    ∧ (∀ parsed thresholds reason vs,
        checkAndAbortEval parsed thresholds = .aborted reason vs →
        0 < vs.length ∧ reason = "multiple_threshold_violations_" ++ toString vs.length) := by
  refine ⟨fun _ _ _ _ _ _ => rfl,
    fun pm nm cs sh ru tm => checkAllThresholds_ok_parts pm nm cs sh ru tm, ?_⟩
  intro parsed thresholds reason vs h
  unfold checkAndAbortEval at h
  split at h
  · cases h
  · split at h
    · cases h
    · split at h
      · rename_i violations _ hlen
        cases h
        exact ⟨hlen, rfl⟩
      · cases h

/-- Witness for C7 at the Scenario-D snapshot: one violation, and the
abort reason encodes the count 1. -/
theorem C7_witness :
    0 < ([⟨"crashing_pods_percent", 40, 10, "crashing_pods_threshold_exceeded"⟩] :
      List ThresholdViolation).length ∧
    "multiple_threshold_violations_1" = "multiple_threshold_violations_" ++
      toString ([⟨"crashing_pods_percent", 40, 10, "crashing_pods_threshold_exceeded"⟩] :
        List ThresholdViolation).length :=
  C7_deterministic_ordered_compound_reason.2.2
    [("pod_metrics", .obj [("crashing_percent", .num 40)]), ("node_metrics", .obj []),
     ("container_stats", .obj []), ("serviceHealth", .obj []), ("resource_usage", .obj [])]
    [("thresholds", .obj [("crashing_pods_percent", .num 10)])]
    "multiple_threshold_violations_1"
    [⟨"crashing_pods_percent", 40, 10, "crashing_pods_threshold_exceeded"⟩]
    rfl

theorem abortOp_eq_true (gatewayErr : Option String) : abortOp gatewayErr = true := by
  cases gatewayErr <;> rfl

theorem checkAndAbortReturn_indep (gatewayErr : Option String) (parsed thresholds : MMap) :
    checkAndAbortReturn gatewayErr parsed thresholds =
      checkAndAbortReturn none parsed thresholds := by
  unfold checkAndAbortReturn
  rcases hE : checkAndAbortEval parsed thresholds <;>
    simp [abortOp_eq_true]

theorem isAbort_of_return_false (gatewayErr : Option String) (parsed thresholds : MMap)
    (h : checkAndAbortReturn gatewayErr parsed thresholds = some false) :
    isAbortOutcome (checkAndAbortEval parsed thresholds) = false := by
  unfold checkAndAbortReturn at h
  rcases hE : checkAndAbortEval parsed thresholds <;> rw [hE] at h
  · rfl
  · rfl
  · rw [abortOp_eq_true] at h
    cases h
  · cases h

theorem isAbort_of_return_none (gatewayErr : Option String) (parsed thresholds : MMap)
    (h : checkAndAbortReturn gatewayErr parsed thresholds = none) :
    isAbortOutcome (checkAndAbortEval parsed thresholds) = false := by
  unfold checkAndAbortReturn at h
  rcases hE : checkAndAbortEval parsed thresholds <;> rw [hE] at h
  · cases h
  · cases h
  · cases h
  · rfl

theorem monitorLoop_indep (gatewayErr : Option String) (events : List MonEvent) :
    monitorLoop gatewayErr events = monitorLoop none events := by
  induction events with
  | nil => rfl
  | cons e rest ih =>
    cases e with
    | stop => rfl
    | update parsed thresholds =>
      simp only [monitorLoop]
      rw [checkAndAbortReturn_indep gatewayErr parsed thresholds]
      rcases hr : checkAndAbortReturn none parsed thresholds with _ | b
      · rfl
      · cases b
        · rw [ih]
        · rfl

theorem monitorLoop_count_le (gatewayErr : Option String) (events : List MonEvent) :
    (monitorLoop gatewayErr events).countP (fun o => isAbortOutcome o) ≤ 1 := by
  induction events with
  | nil => simp [monitorLoop]
  | cons e rest ih =>
    cases e with
    | stop => simp [monitorLoop]
    | update parsed thresholds =>
      simp only [monitorLoop]
      rcases hr : checkAndAbortReturn gatewayErr parsed thresholds with _ | b
      · exact le_trans (List.countP_le_length _) (by simp)
      · cases b
        · rw [List.countP_cons]
          rw [isAbort_of_return_false gatewayErr parsed thresholds hr]
          simpa using ih
        · exact le_trans (List.countP_le_length _) (by simp)

theorem monitorLoop_dropLast_no_abort (gatewayErr : Option String) (events : List MonEvent) :
    ∀ o ∈ (monitorLoop gatewayErr events).dropLast, isAbortOutcome o = false := by
  induction events with
  | nil => simp [monitorLoop]
  | cons e rest ih =>
    cases e with
    | stop => simp [monitorLoop]
    | update parsed thresholds =>
      simp only [monitorLoop]
      rcases hr : checkAndAbortReturn gatewayErr parsed thresholds with _ | b
      · simp
      · cases b
        · rcases htr : monitorLoop gatewayErr rest with _ | ⟨b', l⟩
          · simp
          · rw [List.dropLast_cons₂]
            intro o ho
            rcases List.mem_cons.mp ho with rfl | ho
            · exact isAbort_of_return_false gatewayErr parsed thresholds hr
            · rw [← htr] at ho
              exact ih o ho
        · simp

/-- C6: every monitor evaluates immediately at spawn (the trace starts
with the evaluation of the spawn-time store state); at most one abort is
ever issued; an abort-issuing evaluation is always the final element of
the trace (the monitor terminates right after it, and also terminates on
a panic); and the trace does not depend on whether the abort gateway
call returns an error — there is no internal abort retry, so no monitor
issues a second abort after its first. -/
theorem C6_monitor_aborts_once_then_terminates :
    ∀ (gatewayErr : Option String) (initParsed initThresholds : MMap)
      (events : List MonEvent),
      (monitorOperation gatewayErr initParsed initThresholds events).head? =
        some (checkAndAbortEval initParsed initThresholds)
      ∧ (monitorOperation gatewayErr initParsed initThresholds events).countP
          (fun o => isAbortOutcome o) ≤ 1
      ∧ (∀ o ∈ (monitorOperation gatewayErr initParsed initThresholds events).dropLast,
          isAbortOutcome o = false)
      ∧ monitorOperation gatewayErr initParsed initThresholds events =
          monitorOperation none initParsed initThresholds events := by
  intro gatewayErr initParsed initThresholds events
  refine ⟨?_, ?_, ?_, ?_⟩
  · simp only [monitorOperation]
    rcases hr : checkAndAbortReturn gatewayErr initParsed initThresholds with _ | b
    · rfl
    · cases b <;> rfl
  · simp only [monitorOperation]
    rcases hr : checkAndAbortReturn gatewayErr initParsed initThresholds with _ | b
    · exact le_trans (List.countP_le_length _) (by simp)
    · cases b
      · rw [List.countP_cons, isAbort_of_return_false gatewayErr initParsed initThresholds hr]
        simpa using monitorLoop_count_le gatewayErr events
      · exact le_trans (List.countP_le_length _) (by simp)
  · simp only [monitorOperation]
    rcases hr : checkAndAbortReturn gatewayErr initParsed initThresholds with _ | b
    · simp
    · cases b
      · rcases htr : monitorLoop gatewayErr events with _ | ⟨b', l⟩
        · simp
        · rw [List.dropLast_cons₂]
          intro o ho
          rcases List.mem_cons.mp ho with rfl | ho
          · exact isAbort_of_return_false gatewayErr initParsed initThresholds hr
          · rw [← htr] at ho
            exact monitorLoop_dropLast_no_abort gatewayErr events o ho
      · simp
  · simp only [monitorOperation]
    rw [checkAndAbortReturn_indep gatewayErr initParsed initThresholds]
    rcases hr : checkAndAbortReturn none initParsed initThresholds with _ | b
    · rfl
    · cases b
      · rw [monitorLoop_indep]
      · rfl

/-- Witness for C6: a monitor spawned against an invalid snapshot, then
woken by an update whose evaluation aborts, with a failing abort
gateway: its one non-final evaluation is not an abort, and its whole
trace contains at most one abort. -/
theorem C6_witness :
    isAbortOutcome (CheckOutcome.validationFailed "no pod metrics found") = false
    ∧ (monitorOperation (some "abort call failed") [] []
        [MonEvent.update
          [("pod_metrics", MVal.obj [("crashing_percent", MVal.num 40)]),
           ("node_metrics", MVal.obj []), ("container_stats", MVal.obj []),
           ("serviceHealth", MVal.obj []), ("resource_usage", MVal.obj [])]
          [("thresholds", MVal.obj [("crashing_pods_percent", MVal.num 10)])]]).countP
        (fun o => isAbortOutcome o) ≤ 1 := by
  have h := C6_monitor_aborts_once_then_terminates (some "abort call failed") [] []
    [MonEvent.update
      [("pod_metrics", MVal.obj [("crashing_percent", MVal.num 40)]),
       ("node_metrics", MVal.obj []), ("container_stats", MVal.obj []),
       ("serviceHealth", MVal.obj []), ("resource_usage", MVal.obj [])]
      [("thresholds", MVal.obj [("crashing_pods_percent", MVal.num 10)])]]
  exact ⟨h.2.2.1 _ (by decide), h.2.1⟩

theorem getCR_none_countName (name : String) (store : CRStore)
    (h : getCR name "default" store = none) : countName name store = 0 := by
  unfold getCR at h
  rw [List.find?_eq_none] at h
  unfold countName
  rw [List.length_eq_zero, List.filter_eq_nil_iff]
  exact h

theorem countName_cleanup (name : String) (store : CRStore) :
    countName name (cleanupAllOperationCRs store) = 0 := by
  unfold countName cleanupAllOperationCRs
  rw [List.length_eq_zero, List.filter_eq_nil_iff]
  intro cr hcr
  have h2 := (List.mem_filter.mp hcr).2
  simp only [Bool.not_eq_true'] at h2
  simp [h2]

theorem getCR_cleanup_none (name : String) (store : CRStore) :
    getCR name "default" (cleanupAllOperationCRs store) = none := by
  unfold getCR cleanupAllOperationCRs
  rw [List.find?_eq_none]
  intro cr hcr
  have h2 := (List.mem_filter.mp hcr).2
  simp only [Bool.not_eq_true'] at h2
  simp [h2]

theorem Reconcile_inprogress_absent (r : ReconcilerIds) (now : String)
    (state : OperationStatus) (store : CRStore) (hin : state.InProgress = true)
    (hex : getCR (generateOperationName r.ClusterName state) "default" store = none) :
    Reconcile r now (.ok state) store =
      .ok (store ++ [createOperationCR r now (generateOperationName r.ClusterName state)
        state]) := by
  simp [Reconcile, k8sCreate, createOperationCR, hin, hex]

theorem Reconcile_inprogress_present (r : ReconcilerIds) (now : String)
    (state : OperationStatus) (store : CRStore) (cr : OperationCR)
    (hin : state.InProgress = true)
    (hex : getCR (generateOperationName r.ClusterName state) "default" store = some cr) :
    Reconcile r now (.ok state) store = .ok store := by
  simp [Reconcile, hin, hex]

theorem Reconcile_not_inprogress (r : ReconcilerIds) (now : String)
    (state : OperationStatus) (store store' : CRStore) (hin : state.InProgress = false)
    (h : Reconcile r now (.ok state) store = .ok store') :
    getCR (generateOperationName r.ClusterName state) "default" store' = none := by
  simp only [Reconcile, hin, Bool.false_eq_true, if_false] at h
  rcases hex : getCR (generateOperationName r.ClusterName state) "default" store with _ | cr <;>
    rw [hex] at h <;> cases h <;> exact getCR_cleanup_none _ _

theorem countName_Reconcile (r : ReconcilerIds) (now : String) (state : OperationStatus)
    (store store' : CRStore)
    (h1 : countName (generateOperationName r.ClusterName state) store ≤ 1)
    (h2 : Reconcile r now (.ok state) store = .ok store') :
    countName (generateOperationName r.ClusterName state) store' ≤ 1 := by
  cases hin : state.InProgress
  · simp only [Reconcile, hin, Bool.false_eq_true, if_false] at h2
    rcases hex : getCR (generateOperationName r.ClusterName state) "default" store with _ | cr <;>
      rw [hex] at h2 <;> cases h2 <;> simp [countName_cleanup]
  · rcases hex : getCR (generateOperationName r.ClusterName state) "default" store with _ | cr
    · rw [Reconcile_inprogress_absent r now state store hin hex] at h2
      cases h2
      unfold countName
      rw [List.filter_append, List.length_append]
      have hz := getCR_none_countName _ _ hex
      unfold countName at hz
      rw [hz]
      simp [createOperationCR]
    · rw [Reconcile_inprogress_present r now state store cr hin hex] at h2
      cases h2
      exact h1

theorem reconcileIter_count (r : ReconcilerIds) (nows : Nat → String)
    (state : OperationStatus) :
    ∀ (n : Nat) (store store' : CRStore),
      countName (generateOperationName r.ClusterName state) store ≤ 1 →
      reconcileIter r nows state n store = .ok store' →
      countName (generateOperationName r.ClusterName state) store' ≤ 1 := by
  intro n
  induction n with
  | zero =>
    intro store store' h1 h2
    cases h2
    exact h1
  | succ k ih =>
    intro store store' h1 h2
    unfold reconcileIter at h2
    rcases hR : Reconcile r (nows k) (.ok state) store with _ | st1 <;> rw [hR] at h2
    · cases h2
    · exact ih st1 store' (countName_Reconcile r (nows k) state store st1 h1 hR) h2

/-- C1: `Reconcile` follows the two-state table for the generated name —
in-progress and absent creates the record; in-progress and present is a
no-op leaving the store unchanged; not-in-progress leaves no record under
the generated name (deleting an existing one, creating none); and any
number of consecutive reconcile runs against the same oracle status keeps
at most one record per generated name. -/
theorem C1_reconcile_state_table :
    ∀ (r : ReconcilerIds) (now : String) (state : OperationStatus) (store : CRStore),
      (state.InProgress = true →
        getCR (generateOperationName r.ClusterName state) "default" store = none →
        Reconcile r now (.ok state) store =
          .ok (store ++
            [createOperationCR r now (generateOperationName r.ClusterName state) state]))
      ∧ (state.InProgress = true →
          ∀ cr, getCR (generateOperationName r.ClusterName state) "default" store = some cr →
          Reconcile r now (.ok state) store = .ok store)
      ∧ (state.InProgress = false →
          ∀ store', Reconcile r now (.ok state) store = .ok store' →
            getCR (generateOperationName r.ClusterName state) "default" store' = none)
      ∧ (∀ (nows : Nat → String) (n : Nat) (store' : CRStore),
          countName (generateOperationName r.ClusterName state) store ≤ 1 →
          reconcileIter r nows state n store = .ok store' →
          countName (generateOperationName r.ClusterName state) store' ≤ 1) := by
  intro r now state store
  refine ⟨?_, ?_, ?_, ?_⟩
  · intro hin hex
    exact Reconcile_inprogress_absent r now state store hin hex
  · intro hin cr hex
    exact Reconcile_inprogress_present r now state store cr hin hex
  · intro hin store' h
    exact Reconcile_not_inprogress r now state store store' hin h
  · intro nows n store' h1 h2
    exact reconcileIter_count r nows state n store store' h1 h2

/-- Witness for C1: reconciling an in-progress `Updating` status against
an empty store creates exactly the generated record, and three
consecutive runs keep at most one record under the generated name. -/
theorem C1_witness :
    (Reconcile ⟨"test-rg", "test-cluster"⟩ "t0"
        (.ok ⟨true, "Updating", "Updating", "test-cluster-Updating"⟩) [] =
      .ok [createOperationCR ⟨"test-rg", "test-cluster"⟩ "t0"
        (generateOperationName "test-cluster"
          ⟨true, "Updating", "Updating", "test-cluster-Updating"⟩)
        ⟨true, "Updating", "Updating", "test-cluster-Updating"⟩])
    ∧ (∃ store', reconcileIter ⟨"test-rg", "test-cluster"⟩ (fun _ => "t0")
        ⟨true, "Updating", "Updating", "test-cluster-Updating"⟩ 3 [] = .ok store' ∧
        countName (generateOperationName "test-cluster"
          ⟨true, "Updating", "Updating", "test-cluster-Updating"⟩) store' ≤ 1) := by
  constructor
  · exact (C1_reconcile_state_table ⟨"test-rg", "test-cluster"⟩ "t0"
      ⟨true, "Updating", "Updating", "test-cluster-Updating"⟩ []).1 rfl rfl
  · refine ⟨_, rfl, ?_⟩
    exact (C1_reconcile_state_table ⟨"test-rg", "test-cluster"⟩ "t0"
      ⟨true, "Updating", "Updating", "test-cluster-Updating"⟩ []).2.2.2
      (fun _ => "t0") 3 _ (by simp [countName]) rfl

/-- Counterexample for C9: a record created for an in-progress operation,
carrying this controller's cluster-identity label, is nevertheless
removed by `CleanupOrphanedCRs` — the backing operation's in-progress
state is never consulted. -/
theorem C9_counterexample :
    (⟨true, "Updating", "Updating", "op-id"⟩ : OperationStatus).InProgress = true
    ∧ lookupVal (createOperationCR ⟨"test-rg", "test-cluster"⟩ "t0"
        (generateOperationName "test-cluster" ⟨true, "Updating", "Updating", "op-id"⟩)
        ⟨true, "Updating", "Updating", "op-id"⟩).spec "inProgress" =
          some (.boolean true)
    ∧ (createOperationCR ⟨"test-rg", "test-cluster"⟩ "t0"
        (generateOperationName "test-cluster" ⟨true, "Updating", "Updating", "op-id"⟩)
        ⟨true, "Updating", "Updating", "op-id"⟩).labels.lookup "azure.cluster.name" =
          some "test-cluster"
    ∧ CleanupOrphanedCRs ⟨"default", "test-rg", "test-cluster"⟩
        [createOperationCR ⟨"test-rg", "test-cluster"⟩ "t0"
          (generateOperationName "test-cluster" ⟨true, "Updating", "Updating", "op-id"⟩)
          ⟨true, "Updating", "Updating", "op-id"⟩] = [] :=
  ⟨rfl, rfl, rfl, rfl⟩

/-- C9 (amended): orphan cleanup lists the records in the reconciler's
namespace labeled with this controller's cluster identity and deletes
every one of them unconditionally — even when the backing operation is
still in progress — while records outside the namespace-and-label
selection are not touched. -/
theorem C9_amended_cleanup :
    ∀ (r : PollReconcilerIds) (store : CRStore),
      (∀ cr ∈ store,
        cr.ns = r.Namespace ∧ cr.labels.lookup "azure.cluster.name" = some r.ClusterName →
        cr ∉ CleanupOrphanedCRs r store)
      ∧ (∀ cr ∈ store,
        ¬(cr.ns = r.Namespace ∧ cr.labels.lookup "azure.cluster.name" = some r.ClusterName) →
        cr ∈ CleanupOrphanedCRs r store) := by
  intro r store
  constructor
  · intro cr _ hsel hmem
    have h2 := (List.mem_filter.mp hmem).2
    simp [hsel.1, hsel.2] at h2
  · intro cr hmem hnsel
    refine List.mem_filter.mpr ⟨hmem, ?_⟩
    simpa using not_and_or.mp hnsel

/-- Witness for C9's amended theorem: an in-progress, labeled record in a
one-record store is gone after cleanup. -/
theorem C9_witness :
    createOperationCR ⟨"test-rg", "test-cluster"⟩ "t0" "azure-op-x"
        ⟨true, "Updating", "Updating", "op-id"⟩ ∉
      CleanupOrphanedCRs ⟨"default", "test-rg", "test-cluster"⟩
        [createOperationCR ⟨"test-rg", "test-cluster"⟩ "t0" "azure-op-x"
          ⟨true, "Updating", "Updating", "op-id"⟩] :=
  (C9_amended_cleanup ⟨"default", "test-rg", "test-cluster"⟩
    [createOperationCR ⟨"test-rg", "test-cluster"⟩ "t0" "azure-op-x"
      ⟨true, "Updating", "Updating", "op-id"⟩]).1 _ (List.mem_singleton.mpr rfl) ⟨rfl, rfl⟩

theorem isOperationInProgress_iff (ps : String) :
    isOperationInProgress ps = true ↔
      goToLower ps ∈ (["upgrading", "updating", "scaling", "creating", "deleting",
        "running", "inprogress"] : List String) := by
  unfold isOperationInProgress eqFold
  simp only [List.any_eq_true, beq_iff_eq]
  constructor
  · rintro ⟨x, hx, hfold⟩
    fin_cases hx <;> rw [hfold] <;> decide
  · intro h
    simp only [List.mem_cons, List.not_mem_nil, or_false] at h
    rcases h with h | h | h | h | h | h | h
    · exact ⟨"Upgrading", by decide, by rw [h]; decide⟩
    · exact ⟨"Updating", by decide, by rw [h]; decide⟩
    · exact ⟨"Scaling", by decide, by rw [h]; decide⟩
    · exact ⟨"Creating", by decide, by rw [h]; decide⟩
    · exact ⟨"Deleting", by decide, by rw [h]; decide⟩
    · exact ⟨"Running", by decide, by rw [h]; decide⟩
    · exact ⟨"InProgress", by decide, by rw [h]; decide⟩

/-- C5: the oracle adapter reports `InProgress = true` exactly when the
provisioning state matches, case-insensitively, one of the seven fixed
active states (`Upgrading`, `Updating`, `Scaling`, `Creating`,
`Deleting`, `Running`, `InProgress`); every unmatched state yields
`InProgress = false`; and when the provisioning-state field is absent the
returned status is `Unknown` with `InProgress = false`. -/
theorem C5_oracle_classification :
    ∀ (clusterName : String) (nowUnix : Int) (cluster : ManagedCluster),
      ((GetClusterOperationStatus clusterName nowUnix cluster).InProgress = true ↔
        (∃ ps, clusterProvisioningState cluster = some ps ∧
          goToLower ps ∈ (["upgrading", "updating", "scaling", "creating", "deleting",
            "running", "inprogress"] : List String)))
      ∧ (clusterProvisioningState cluster = none →
          (GetClusterOperationStatus clusterName nowUnix cluster).Status = "Unknown" ∧
          (GetClusterOperationStatus clusterName nowUnix cluster).InProgress = false) := by
  intro clusterName nowUnix cluster
  constructor
  · rcases hps : clusterProvisioningState cluster with _ | ps
    · simp [GetClusterOperationStatus, hps]
    · simp only [GetClusterOperationStatus, hps]
      rw [isOperationInProgress_iff ps]
      constructor
      · intro h
        exact ⟨ps, rfl, h⟩
      · rintro ⟨ps', hps', hmem⟩
        cases Option.some.inj hps'
        exact hmem
  · intro h
    simp [GetClusterOperationStatus, h]

/-- Witness for C5: a cluster response with no provisioning state yields
`Status = "Unknown"` and `InProgress = false`. -/
theorem C5_witness :
    (GetClusterOperationStatus "test-cluster" 0 ⟨some ⟨none, none, none, false⟩⟩).Status =
        "Unknown"
    ∧ (GetClusterOperationStatus "test-cluster" 0
        ⟨some ⟨none, none, none, false⟩⟩).InProgress = false :=
  (C5_oracle_classification "test-cluster" 0 ⟨some ⟨none, none, none, false⟩⟩).2 rfl

/-- Counterexample for C8: the Reconcile-path name generator prefixes the
name with `op-`, so it differs from the claimed
`normalize(cluster)-normalize(type)` form at `test-cluster`/`Updating`;
and a 70-character cluster name yields a 82-character record name — the
result is not truncated to 63 characters. -/
theorem C8_counterexample :
    generateOperationName "test-cluster" ⟨true, "Updating", "Updating", "op-id"⟩ ≠
      specC8Name "test-cluster" ⟨true, "Updating", "Updating", "op-id"⟩
    ∧ 63 < (generateOperationName (String.mk (List.replicate 70 'a'))
        ⟨true, "Updating", "Updating", "op-id"⟩).length := by
  constructor <;> decide

theorem char_pipeline (c : Char) :
    Char.toLower ((fun x => if x = '.' then '-' else x)
      ((fun x => if x = ' ' then '-' else x)
        ((fun x => if x = '_' then '-' else x) (Char.toLower c)))) =
      (if c = '.' ∨ c = '_' ∨ c = ' ' then '-' else Char.toLower c) := by
  by_cases h : 65 ≤ c.toNat ∧ c.toNat ≤ 90
  · obtain ⟨h1, h2⟩ := h
    have hc : Char.ofNat c.toNat = c := Char.ofNat_toNat c
    obtain ⟨n, hn⟩ : ∃ n, c.toNat = n := ⟨_, rfl⟩
    rw [hn] at h1 h2 hc
    subst hc
    interval_cases n <;> decide
  · have hlow : Char.toLower c = c := by
      simp [Char.toLower, ge_iff_le, h]
    rw [hlow]
    by_cases hd : c = '.'
    · subst hd
      decide
    by_cases hu : c = '_'
    · subst hu
      decide
    by_cases hs : c = ' '
    · subst hs
      decide
    simp [hd, hu, hs, hlow]

theorem goToLower_append (a b : String) :
    goToLower (a ++ b) = goToLower a ++ goToLower b := by
  apply String.ext
  simp [goToLower]

theorem goReplaceAll_append (a b : String) (pat repl : Char) :
    goReplaceAll (a ++ b) pat repl = goReplaceAll a pat repl ++ goReplaceAll b pat repl := by
  apply String.ext
  simp [goReplaceAll]

theorem pipeline_goToLower (s : String) :
    goToLower (goReplaceAll (goReplaceAll (goReplaceAll (goToLower s) '_' '-') ' ' '-')
      '.' '-') = normalizeC8 s := by
  apply String.ext
  simp only [goToLower, goReplaceAll, normalizeC8, List.map_map]
  refine List.map_congr_left fun c _ => ?_
  simpa [Function.comp] using char_pipeline c

/-- C8 (amended): for every cluster name and operation status, the
Reconcile-path generated name is exactly `op-` followed by the normalized
cluster name, `-`, and the normalized operation type (or status when the
type is empty) — lower-cased with `.`, `_` and space replaced by `-` —
with no truncation: the name is as long as its inputs make it. -/
theorem C8_amended_name :
    ∀ (clusterName : String) (state : OperationStatus),
      generateOperationName clusterName state = amendedC8Name clusterName state := by
  intro clusterName state
  by_cases hty : state.OperationType ≠ ""
  · have hgen : generateOperationName clusterName state =
        goToLower (goReplaceAll (goReplaceAll (goReplaceAll
          ("op-" ++ goToLower clusterName ++ "-" ++ goToLower state.OperationType)
          '_' '-') ' ' '-') '.' '-') := by
      simp [generateOperationName, hty]
    have hamd : amendedC8Name clusterName state =
        "op-" ++ normalizeC8 clusterName ++ "-" ++ normalizeC8 state.OperationType := by
      simp [amendedC8Name, hty]
    rw [hgen, hamd]
    simp only [goReplaceAll_append, goToLower_append]
    rw [pipeline_goToLower clusterName, pipeline_goToLower state.OperationType]
    rw [show goToLower (goReplaceAll (goReplaceAll (goReplaceAll "op-" '_' '-') ' ' '-')
      '.' '-') = "op-" by decide]
    rw [show goToLower (goReplaceAll (goReplaceAll (goReplaceAll "-" '_' '-') ' ' '-')
      '.' '-') = "-" by decide]
  · have hgen : generateOperationName clusterName state =
        goToLower (goReplaceAll (goReplaceAll (goReplaceAll
          ("op-" ++ goToLower clusterName ++ "-" ++ goToLower state.Status)
          '_' '-') ' ' '-') '.' '-') := by
      simp [generateOperationName, hty]
    have hamd : amendedC8Name clusterName state =
        "op-" ++ normalizeC8 clusterName ++ "-" ++ normalizeC8 state.Status := by
      simp [amendedC8Name, hty]
    rw [hgen, hamd]
    simp only [goReplaceAll_append, goToLower_append]
    rw [pipeline_goToLower clusterName, pipeline_goToLower state.Status]
    rw [show goToLower (goReplaceAll (goReplaceAll (goReplaceAll "op-" '_' '-') ' ' '-')
      '.' '-') = "op-" by decide]
    rw [show goToLower (goReplaceAll (goReplaceAll (goReplaceAll "-" '_' '-') ' ' '-')
      '.' '-') = "-" by decide]
